import Mathlib

/-!
Shallow embedding of the weather-polling program (src/main.py and
src/core/weather.py) and proofs about its specification claims.

Modelling conventions:
* Parsed JSON values are the inductive `Json`; a Python `dict[str, Any]`
  coming from `response.json()` is a `JDict`, an association list with
  Python-dict lookup semantics (`dictGet`).
* Python's `d.get(k) is None` is `pyGetIsNone` (true both when the key is
  absent and when it is bound to JSON null / Python `None`).
* Console output, HTTP requests and `asyncio.sleep` calls are recorded as a
  trace of `Event`s; a raised exception is an `Except.error` carrying the
  exception's message string, and a function returning normally is
  `Except.ok`.
* The outcome of one HTTP attempt (the `client.get` / `raise_for_status` /
  `response.json()` sequence of one loop iteration of `fetch_api`) is an
  `AttemptOutcome` supplied by an environment `Nat → AttemptOutcome`
  indexed by the attempt counter `repeat_fetch`: either a parsed payload,
  a non-success HTTP status (`raise_for_status` raising `HTTPError`), or a
  body that fails to parse (`response.json()` raising `JSONDecodeError`).
  This matches the failure taxonomy of the spec (§4.2 steps 2b/2c).
* Latitude/longitude floats carry no arithmetic in the program; they are
  modelled as `Rat`.
* The unbounded `while True` polling loop of `weather` is modelled with an
  explicit fuel argument counting how many polling cycles are unfolded;
  exhausted fuel returns `Except.ok ()` ("still running").
-/

deriving instance DecidableEq for Except

/-- A parsed JSON value. -/
inductive Json where
  | null : Json
  | num : Int → Json
  | str : String → Json
  | obj : List (String × Json) → Json
deriving Repr

/-- A Python `dict[str, Any]` holding parsed JSON, as an association list. -/
abbrev JDict := List (String × Json)

/-- Python dict lookup `d.get(k)` / `d[k]`: first binding of the key. -/
def dictGet : JDict → String → Option Json
  | [], _ => none
  | (k, v) :: rest, key => if k = key then some v else dictGet rest key

/-- Python's `d.get(k) is None`: true when `k` is absent or bound to `None`
(JSON null). -/
def pyGetIsNone (d : JDict) (k : String) : Bool :=
  match dictGet d k with
  | none => true
  | some Json.null => true
  | some _ => false

/-- Indexing a JSON value that is a mapping: `j[k]`, `none` meaning a
`KeyError`. (On a non-mapping value Python would raise `TypeError`; the
claims only exercise mapping values, see `print_weather`.) -/
def jGet : Json → String → Option Json
  | Json.obj kvs, key => dictGet kvs key
  | _, _ => none

/-- How Python's f-string renders a JSON value (`str(value)`). -/
def Json.display : Json → String
  | Json.null => "None"
  | Json.num n => toString n
  | Json.str s => s
  | Json.obj _ => "<mapping>"

/-- Python `str.lower()` (ASCII case mapping; every string it is applied to
in this program is an ASCII city name). -/
def pyLower (s : String) : String :=
  String.mk (s.data.map Char.toLower)

/-- Python `str.capitalize()`: first character uppercased, the rest
lowercased (ASCII case mapping; the exact glyphs are display-only). -/
def pyCapitalize (s : String) : String :=
  match s.data with
  | [] => ""
  | c :: cs => String.mk (c.toUpper :: cs.map Char.toLower)

/-- The `KeyError` message of `print_weather`. -/
def MALFORMED_MSG : String := "Неверный состав полученных от API данных."

/-- The per-metric diagnostic line of `print_weather`. -/
def missingMetricLine (param_key : String) : String :=
  "Ошибка: данные \"" ++ param_key ++ "\" отсутствуют или неполные."

/-- Embedding of `print_weather(city_name, data_weather, param_current)`.

It returns the list of printed lines, or `Except.error` for the raised
`KeyError` when the `current` / `current_units` check fails.  In the source
the whole f-string of a metric line is evaluated before anything is
printed, and a `KeyError` from either lookup is caught and replaced by the
diagnostic line, so each metric yields exactly one line. -/
def print_weather (city_name : String) (data_weather : JDict)
    (param_current : List (String × String)) : Except String (List String) :=
  let units := "current_units"
  let current := "current"
  if pyGetIsNone data_weather current || pyGetIsNone data_weather units then
    Except.error MALFORMED_MSG
  else
    Except.ok (("\nПогода в городе " ++ city_name) ::
      param_current.map (fun param =>
        match jGet ((dictGet data_weather current).getD Json.null) param.1,
              jGet ((dictGet data_weather units).getD Json.null) param.1 with
        | some v, some u =>
            pyCapitalize param.2 ++ ": " ++ v.display ++ " " ++ u.display
        | some _, none => missingMetricLine param.1
        | none, _ => missingMetricLine param.1))

/-- The query parameters built at the top of `fetch_api`. -/
structure Params where
  latitude : Rat
  longitude : Rat
  current : String
deriving Repr, DecidableEq

/-- Outcome of one HTTP attempt (one iteration of the retry loop): a parsed
payload, or `raise_for_status` raising `HTTPError` (non-success status), or
`response.json()` raising `JSONDecodeError`. The carried string is the
message the exception renders in the diagnostic `print`. -/
inductive AttemptOutcome where
  | success : JDict → AttemptOutcome
  | httpError : String → AttemptOutcome
  | decodeError : String → AttemptOutcome

/-- Whether the attempt outcome is one of the two failure kinds. -/
def AttemptOutcome.isFail : AttemptOutcome → Bool
  | AttemptOutcome.success _ => false
  | AttemptOutcome.httpError _ => true
  | AttemptOutcome.decodeError _ => true

/-- Observable events of a run: an HTTP GET with its query parameters, a
printed console line, an `asyncio.sleep` with its duration. -/
inductive Event where
  | request : Params → Event
  | printLine : String → Event
  | sleep : Nat → Event
deriving Repr, DecidableEq

/-- The `ValueError` message raised after the retry budget is exhausted. -/
def EXHAUSTED_MSG : String := "Данные для data_weather отсутствуют."

/-- The `params` dict of `fetch_api`: latitude, longitude, and
`','.join(d[0] for d in param_current)`. -/
def buildParams (city_coord : Rat × Rat)
    (param_current : List (String × String)) : Params :=
  ⟨city_coord.1, city_coord.2,
   String.intercalate "," (param_current.map Prod.fst)⟩

/-- The diagnostic line a failed attempt prints (`print(f'Ошибка: ...')`). -/
def failLine : AttemptOutcome → String
  | AttemptOutcome.success _ => ""
  | AttemptOutcome.httpError e => "Ошибка: " ++ e
  | AttemptOutcome.decodeError m => "Ошибка: " ++ m

/-- The `while repeat_fetch < 5` loop of `fetch_api`. `r` is the value of
`repeat_fetch` and `fuel` is `5 - repeat_fetch`, so the loop guard
`repeat_fetch < 5` is exactly `fuel > 0`. Each iteration issues the GET,
then on success returns the parsed payload immediately; on failure prints
the diagnostic, sleeps 3, increments the counter. -/
def fetchLoop (p : Params) (env : Nat → AttemptOutcome) :
    Nat → Nat → List Event × Except String JDict
  | _, 0 => ([], Except.error EXHAUSTED_MSG)
  | r, fuel + 1 =>
    match env r with
    | AttemptOutcome.success d => ([Event.request p], Except.ok d)
    | AttemptOutcome.httpError e =>
        let rest := fetchLoop p env (r + 1) fuel
        (Event.request p :: Event.printLine ("Ошибка: " ++ e) ::
           Event.sleep 3 :: rest.1, rest.2)
    | AttemptOutcome.decodeError m =>
        let rest := fetchLoop p env (r + 1) fuel
        (Event.request p :: Event.printLine ("Ошибка: " ++ m) ::
           Event.sleep 3 :: rest.1, rest.2)

/-- Embedding of `fetch_api(client, city_coord, param_current)`: builds the
query parameters and runs the 5-attempt retry loop from `repeat_fetch = 0`.
Returns the event trace and either the parsed payload of the first
successful attempt or the raised exception's message. -/
def fetch_api (city_coord : Rat × Rat) (param_current : List (String × String))
    (env : Nat → AttemptOutcome) : List Event × Except String JDict :=
  fetchLoop (buildParams city_coord param_current) env 0 5

/-- Number of HTTP requests in a trace. -/
def requestCount (tr : List Event) : Nat :=
  tr.countP (fun e => match e with | Event.request _ => true | _ => false)

/-- Number of sleeps in a trace. -/
def sleepCount (tr : List Event) : Nat :=
  tr.countP (fun e => match e with | Event.sleep _ => true | _ => false)

/-- The three events of one failed attempt: the request, the diagnostic
line, the 3-unit sleep. -/
def failBlock (p : Params) (o : AttemptOutcome) : List Event :=
  [Event.request p, Event.printLine (failLine o), Event.sleep 3]

/-- Trace of `n` consecutive failed attempts starting at counter `r`. -/
def failTrace (p : Params) (env : Nat → AttemptOutcome) : Nat → Nat → List Event
  | _, 0 => []
  | r, n + 1 => failBlock p (env r) ++ failTrace p env (r + 1) n

/-- The static coordinate table `CITY_COORD`. -/
def CITY_COORD : List (String × (Rat × Rat)) :=
  [("moscow", ((55.751244 : Rat), (37.618423 : Rat)))]

/-- Python dict lookup on the coordinate table (`CITY_COORD.get(city)` /
`CITY_COORD[city]`). -/
def coordGet : List (String × (Rat × Rat)) → String → Option (Rat × Rat)
  | [], _ => none
  | (k, v) :: rest, key => if k = key then some v else coordGet rest key

/-- The default metric set `PARAM_CURRENT_DEFAULT`. -/
def PARAM_CURRENT_DEFAULT : List (String × String) :=
  [("temperature_2m", "температура"),
   ("relative_humidity_2m", "влажность"),
   ("pressure_msl", "давление")]

/-- The `KeyError` message raised by `weather` for an unknown city; `city`
here is the string interpolated into the f-string at the raise site. -/
def NOT_FOUND_MSG (city : String) : String :=
  "Отсутствуют данные по данному городу: " ++ city

/-- The `while True` polling loop of `weather`: fetch, print, sleep,
repeat. `envs` gives the attempt outcomes of each polling cycle; `fuel`
bounds how many cycles are unfolded (the source loop is unbounded);
exhausted fuel returns `Except.ok ()` meaning "still running". An
`Except.error` from `fetch_api` or `print_weather` propagates: `weather`
has no handler for either. -/
def weatherLoop (coord : Rat × Rat) (param_current : List (String × String))
    (city_disp : String) (interval_sec : Nat)
    (envs : Nat → Nat → AttemptOutcome) :
    Nat → Nat → List Event × Except String Unit
  | 0, _ => ([], Except.ok ())
  | fuel + 1, cycle =>
    match fetch_api coord param_current (envs cycle) with
    | (ftr, Except.error e) => (ftr, Except.error e)
    | (ftr, Except.ok data_weather) =>
      match print_weather city_disp data_weather param_current with
      | Except.error e => (ftr, Except.error e)
      | Except.ok lines =>
        let rest := weatherLoop coord param_current city_disp interval_sec
          envs fuel (cycle + 1)
        (ftr ++ lines.map Event.printLine ++ Event.sleep interval_sec :: rest.1,
         rest.2)

/-- Embedding of `weather(city, interval_sec, param_current)`: lowercase
the city, default the metric set, check the coordinate table (raising
`KeyError` with the lowercased city on a miss), then poll. -/
def weather (city : String) (interval_sec : Nat)
    (param_current : Option (List (String × String)))
    (envs : Nat → Nat → AttemptOutcome) (fuel : Nat) :
    List Event × Except String Unit :=
  let city := pyLower city
  let pc := param_current.getD PARAM_CURRENT_DEFAULT
  match coordGet CITY_COORD city with
  | none => ([], Except.error (NOT_FOUND_MSG city))
  | some coord => weatherLoop coord pc (pyCapitalize city) interval_sec envs fuel 0

/-- Embedding of `main()` in src/main.py: `asyncio.run(weather('moscow'))`
with the source defaults `interval_sec = 5`, `param_current = None`. An
`Except.error` here is an uncaught exception terminating the process. -/
def mainRun (envs : Nat → Nat → AttemptOutcome) (fuel : Nat) :
    List Event × Except String Unit :=
  weather "moscow" 5 none envs fuel

/-- A Python `dict` with one key deleted, for comparing a key bound to
`None` against the key being absent. -/
def eraseKey (d : JDict) (k : String) : JDict :=
  d.filter (fun p => p.1 != k)

/-- Environment where every attempt fails with a non-success status. -/
def envAllFail : Nat → AttemptOutcome :=
  fun _ => AttemptOutcome.httpError "boom"

/-- One-cycle-per-environment version of `envAllFail` for `weather`. -/
def envsAllFail : Nat → Nat → AttemptOutcome :=
  fun _ _ => AttemptOutcome.httpError "boom"

/-- A small concrete payload for witnesses. -/
def demoPayload : JDict :=
  [("current", Json.obj [("temperature_2m", Json.num 5)]),
   ("current_units", Json.obj [("temperature_2m", Json.str "°C")])]

/-- Environment whose attempts 0 and 1 fail and whose attempt 2 succeeds. -/
def envSuccAt2 : Nat → AttemptOutcome :=
  fun n => if n < 2 then AttemptOutcome.httpError "down"
           else AttemptOutcome.success demoPayload

/-- Environment whose first attempt already succeeds (empty payload). -/
def envSucc0 : Nat → AttemptOutcome :=
  fun _ => AttemptOutcome.success []

/-- A metric spec with a duplicated provider key, for the no-deduplication
half of the round-trip claim. -/
def dupPC : List (String × String) :=
  [("a", "x"), ("b", "y"), ("a", "z")]

/-- `current` section of the witness payload for the presenter claim:
temperature and pressure present, humidity absent. -/
def c8cur : List (String × Json) :=
  [("temperature_2m", Json.num 5), ("pressure_msl", Json.num 1013)]

/-- `current_units` section of the witness payload for the presenter
claim. -/
def c8un : List (String × Json) :=
  [("temperature_2m", Json.str "°C"), ("pressure_msl", Json.str "hPa")]

/-- Witness payload for the presenter claim. -/
def c8d : JDict :=
  [("current", Json.obj c8cur), ("current_units", Json.obj c8un)]

/-- The comma-join written the way the spec describes it: the keys in
order, separated by commas, nothing dropped and nothing reordered. Used as
the specification side of the round-trip claim about the `current`
parameter. -/
def specCommaJoin : List String → String
  | [] => ""
  | [k] => k
  | k :: k2 :: ks => k ++ "," ++ specCommaJoin (k2 :: ks)

/-- The tail of a separator join: separator before each element. -/
def restJoin (s : String) : List String → String
  | [] => ""
  | a :: as => s ++ a ++ restJoin s as

theorem intercalate_go_eq (s : String) :
    ∀ (as : List String) (acc : String),
      String.intercalate.go acc s as = acc ++ restJoin s as := by
  intro as
  induction as with
  | nil => intro acc; simp [String.intercalate.go, restJoin]
  | cons a as ih =>
    intro acc
    simp [String.intercalate.go, restJoin, ih, String.append_assoc]

theorem cons_restJoin_eq_specCommaJoin :
    ∀ (as : List String) (a : String),
      a ++ restJoin "," as = specCommaJoin (a :: as) := by
  intro as
  induction as with
  | nil => intro a; simp [restJoin, specCommaJoin]
  | cons b bs ih =>
    intro a
    simp [restJoin, specCommaJoin, ← ih, String.append_assoc]

theorem intercalate_comma_eq_specCommaJoin (l : List String) :
    String.intercalate "," l = specCommaJoin l := by
  cases l with
  | nil => rfl
  | cons a as =>
    rw [String.intercalate, intercalate_go_eq, cons_restJoin_eq_specCommaJoin]

theorem fetchLoop_fail_step (p : Params) (env : Nat → AttemptOutcome)
    (r f : Nat) (h : (env r).isFail = true) :
    fetchLoop p env r (f + 1) =
      (failBlock p (env r) ++ (fetchLoop p env (r + 1) f).1,
       (fetchLoop p env (r + 1) f).2) := by
  cases henv : env r with
  | success d => rw [henv] at h; simp [AttemptOutcome.isFail] at h
  | httpError e => simp [fetchLoop, henv, failBlock, failLine]
  | decodeError m => simp [fetchLoop, henv, failBlock, failLine]

theorem fetchLoop_prefix (p : Params) (env : Nat → AttemptOutcome)
    (k : Nat) :
    ∀ (r f : Nat), k ≤ f → (∀ j, j < k → (env (r + j)).isFail = true) →
    fetchLoop p env r f =
      (failTrace p env r k ++ (fetchLoop p env (r + k) (f - k)).1,
       (fetchLoop p env (r + k) (f - k)).2) := by
  induction k with
  | zero => intro r f _ _; simp [failTrace]
  | succ k ih =>
    intro r f hkf hfail
    obtain ⟨f', rfl⟩ : ∃ f', f = f' + 1 := ⟨f - 1, by omega⟩
    have h0 : (env r).isFail = true := by simpa using hfail 0 (Nat.succ_pos k)
    rw [fetchLoop_fail_step p env r f' h0]
    have ihr := ih (r + 1) f' (by omega) (fun j hj => by
      have := hfail (j + 1) (by omega)
      simpa [Nat.add_assoc, Nat.add_comm 1 j] using this)
    rw [ihr]
    have hr : r + 1 + k = r + (k + 1) := by omega
    rw [hr]
    simp [failTrace, List.append_assoc, Nat.succ_sub_succ]

theorem fetchLoop_all_fail (p : Params) (env : Nat → AttemptOutcome)
    (r f : Nat) (hfail : ∀ j, j < f → (env (r + j)).isFail = true) :
    fetchLoop p env r f = (failTrace p env r f, Except.error EXHAUSTED_MSG) := by
  have h := fetchLoop_prefix p env f r f le_rfl hfail
  simpa [Nat.sub_self, fetchLoop] using h

theorem fetchLoop_success_at (p : Params) (env : Nat → AttemptOutcome)
    (k r f : Nat) (d : JDict) (hkf : k < f)
    (hfail : ∀ j, j < k → (env (r + j)).isFail = true)
    (hsucc : env (r + k) = AttemptOutcome.success d) :
    fetchLoop p env r f =
      (failTrace p env r k ++ [Event.request p], Except.ok d) := by
  have h := fetchLoop_prefix p env k r f (Nat.le_of_lt hkf) hfail
  obtain ⟨m, hm⟩ : ∃ m, f - k = m + 1 := ⟨f - k - 1, by omega⟩
  rw [h, hm]
  simp [fetchLoop, hsucc]

theorem requestCount_append (l1 l2 : List Event) :
    requestCount (l1 ++ l2) = requestCount l1 + requestCount l2 :=
  List.countP_append _ _ _

theorem sleepCount_append (l1 l2 : List Event) :
    sleepCount (l1 ++ l2) = sleepCount l1 + sleepCount l2 :=
  List.countP_append _ _ _

theorem requestCount_failTrace (p : Params) (env : Nat → AttemptOutcome) :
    ∀ (n r : Nat), requestCount (failTrace p env r n) = n := by
  intro n
  induction n with
  | zero => intro r; simp [failTrace, requestCount]
  | succ n ih =>
    intro r
    have hstep : failTrace p env r (n + 1) =
        failBlock p (env r) ++ failTrace p env (r + 1) n := rfl
    rw [hstep, requestCount_append, ih (r + 1)]
    simp [requestCount, failBlock, List.countP_cons]
    omega

theorem sleepCount_failTrace (p : Params) (env : Nat → AttemptOutcome) :
    ∀ (n r : Nat), sleepCount (failTrace p env r n) = n := by
  intro n
  induction n with
  | zero => intro r; simp [failTrace, sleepCount]
  | succ n ih =>
    intro r
    have hstep : failTrace p env r (n + 1) =
        failBlock p (env r) ++ failTrace p env (r + 1) n := rfl
    rw [hstep, sleepCount_append, ih (r + 1)]
    simp [sleepCount, failBlock, List.countP_cons]
    omega

theorem printLine_mem_failTrace (p : Params) (env : Nat → AttemptOutcome) :
    ∀ (n r j : Nat), j < n →
      Event.printLine (failLine (env (r + j))) ∈ failTrace p env r n := by
  intro n
  induction n with
  | zero => intro r j hj; omega
  | succ n ih =>
    intro r j hj
    cases j with
    | zero => simp [failTrace, failBlock]
    | succ j =>
      have hmem := ih (r + 1) j (by omega)
      have hr : r + 1 + j = r + (j + 1) := by omega
      rw [hr] at hmem
      have hstep : failTrace p env r (n + 1) =
          failBlock p (env r) ++ failTrace p env (r + 1) n := rfl
      rw [hstep]
      exact List.mem_append_right _ hmem

theorem requestCount_fetchLoop_pos (p : Params) (env : Nat → AttemptOutcome)
    (r f : Nat) (h : 1 ≤ f) :
    1 ≤ requestCount (fetchLoop p env r f).1 := by
  obtain ⟨f', rfl⟩ : ∃ f', f = f' + 1 := ⟨f - 1, by omega⟩
  cases henv : env r <;>
    simp [fetchLoop, henv, requestCount, List.countP_cons]

theorem fetchLoop_error (p : Params) (env : Nat → AttemptOutcome) :
    ∀ (f r : Nat) (e : String), (fetchLoop p env r f).2 = Except.error e →
      e = EXHAUSTED_MSG ∧ ∀ j, j < f → (env (r + j)).isFail = true := by
  intro f
  induction f with
  | zero =>
    intro r e h
    simp [fetchLoop] at h
    exact ⟨h.symm, fun j hj => absurd hj (by omega)⟩
  | succ f ih =>
    intro r e h
    cases henv : env r with
    | success d => simp [fetchLoop, henv] at h
    | httpError m =>
      simp only [fetchLoop, henv] at h
      obtain ⟨he, hall⟩ := ih (r + 1) e h
      refine ⟨he, fun j hj => ?_⟩
      cases j with
      | zero => simp [henv, AttemptOutcome.isFail]
      | succ j =>
        have hj' := hall j (by omega)
        have hr : r + 1 + j = r + (j + 1) := by omega
        rwa [hr] at hj'
    | decodeError m =>
      simp only [fetchLoop, henv] at h
      obtain ⟨he, hall⟩ := ih (r + 1) e h
      refine ⟨he, fun j hj => ?_⟩
      cases j with
      | zero => simp [henv, AttemptOutcome.isFail]
      | succ j =>
        have hj' := hall j (by omega)
        have hr : r + 1 + j = r + (j + 1) := by omega
        rwa [hr] at hj'

theorem fetchLoop_request_params (p : Params) (env : Nat → AttemptOutcome) :
    ∀ (f r : Nat) (q : Params),
      Event.request q ∈ (fetchLoop p env r f).1 → q = p := by
  intro f
  induction f with
  | zero => intro r q h; simp [fetchLoop] at h
  | succ f ih =>
    intro r q h
    cases henv : env r <;> simp [fetchLoop, henv] at h
    case success d => exact h
    case httpError m =>
      rcases h with h | h
      · exact h
      · exact ih (r + 1) q h
    case decodeError m =>
      rcases h with h | h
      · exact h
      · exact ih (r + 1) q h

theorem dictGet_eraseKey_self (k : String) :
    ∀ (d : JDict), dictGet (eraseKey d k) k = none := by
  intro d
  induction d with
  | nil => simp [eraseKey, dictGet]
  | cons p rest ih =>
    obtain ⟨a, v⟩ := p
    by_cases hpk : a = k
    · have hstep : eraseKey ((a, v) :: rest) k = eraseKey rest k := by
        simp [eraseKey, List.filter_cons, hpk]
      rw [hstep]; exact ih
    · have hstep : eraseKey ((a, v) :: rest) k = (a, v) :: eraseKey rest k := by
        simp [eraseKey, List.filter_cons, hpk]
      rw [hstep, dictGet]
      simp [hpk, ih]

theorem weather_unknown (city : String) (interval_sec : Nat)
    (param_current : Option (List (String × String)))
    (envs : Nat → Nat → AttemptOutcome) (fuel : Nat)
    (h : coordGet CITY_COORD (pyLower city) = none) :
    weather city interval_sec param_current envs fuel =
      ([], Except.error (NOT_FOUND_MSG (pyLower city))) := by
  simp [weather, h]

theorem weather_moscow_unfold (interval_sec : Nat)
    (param_current : Option (List (String × String)))
    (envs : Nat → Nat → AttemptOutcome) (fuel : Nat) :
    weather "moscow" interval_sec param_current envs fuel =
      weatherLoop ((55.751244 : Rat), (37.618423 : Rat))
        (param_current.getD PARAM_CURRENT_DEFAULT) (pyCapitalize "moscow")
        interval_sec envs fuel 0 := rfl

theorem weatherLoop_fetch_error (coord : Rat × Rat)
    (param_current : List (String × String)) (city_disp : String)
    (interval_sec : Nat) (envs : Nat → Nat → AttemptOutcome)
    (fuel cycle : Nat) (tr : List Event) (e : String)
    (h : fetch_api coord param_current (envs cycle) = (tr, Except.error e)) :
    weatherLoop coord param_current city_disp interval_sec envs
      (fuel + 1) cycle = (tr, Except.error e) := by
  simp [weatherLoop, h]

/-- C1: a transport failure (non-success HTTP status) or decoding failure
of an attempt is handled inside the retry loop: the result of `fetch_api`
is an exception only when all 5 attempts failed, and the only exception
that leaves the loop is the terminal `ValueError`; moreover a failed
attempt with budget remaining prints its diagnostic line and the loop
issues a further attempt. (`k` is the 0-indexed value of `repeat_fetch`.) -/
theorem c1_failures_handled_locally (city_coord : Rat × Rat)
    (param_current : List (String × String)) (env : Nat → AttemptOutcome) :
    (∀ e, (fetch_api city_coord param_current env).2 = Except.error e →
        e = EXHAUSTED_MSG ∧ ∀ j, j < 5 → (env j).isFail = true) ∧
    (∀ k, k + 1 < 5 → (∀ j, j ≤ k → (env j).isFail = true) →
        Event.printLine (failLine (env k)) ∈
          (fetch_api city_coord param_current env).1 ∧
        k + 2 ≤ requestCount (fetch_api city_coord param_current env).1) := by
  constructor
  · intro e he
    have h := fetchLoop_error (buildParams city_coord param_current) env 5 0 e he
    simpa using h
  · intro k hk hfail
    have hpre := fetchLoop_prefix (buildParams city_coord param_current) env
      (k + 1) 0 5 (by omega) (fun j hj => by simpa using hfail j (by omega))
    unfold fetch_api
    rw [hpre]
    constructor
    · apply List.mem_append_left
      have hmem := printLine_mem_failTrace (buildParams city_coord param_current)
        env (k + 1) 0 k (by omega)
      simpa using hmem
    · rw [requestCount_append, requestCount_failTrace]
      have hpos := requestCount_fetchLoop_pos
        (buildParams city_coord param_current) env (0 + (k + 1)) (5 - (k + 1))
        (by omega)
      omega

theorem c1_witness :
    Event.printLine (failLine (envAllFail 0)) ∈
      (fetch_api (1, 2) [("temperature_2m", "температура")] envAllFail).1 ∧
    0 + 2 ≤ requestCount
      (fetch_api (1, 2) [("temperature_2m", "температура")] envAllFail).1 :=
  (c1_failures_handled_locally (1, 2) [("temperature_2m", "температура")]
    envAllFail).2 0 (by omega) (fun j _ => rfl)

/-- C3 counterexample: with every attempt failing, the code sleeps after
the 5th (final) failed attempt too — the trace holds 5 sleeps, not 4, and
its very last event is a 3-unit sleep. -/
theorem c3_counterexample :
    sleepCount (fetch_api (1, 2) PARAM_CURRENT_DEFAULT envAllFail).1 = 5 ∧
    sleepCount (fetch_api (1, 2) PARAM_CURRENT_DEFAULT envAllFail).1 ≠ 4 ∧
    (fetch_api (1, 2) PARAM_CURRENT_DEFAULT envAllFail).1.getLast? =
      some (Event.sleep 3) := by decide

/-- C3 amended: a fixed 3-unit sleep follows every failed attempt,
including the final one (each failed attempt contributes the block
`[request, diagnostic, sleep 3]`), so 5 failed attempts produce exactly 5
delays before the terminal failure; after a success at attempt `k`
(0-indexed) exactly `k` delays occurred, i.e. none after the successful
attempt. -/
theorem c3_amended_delay_after_every_failure (city_coord : Rat × Rat)
    (param_current : List (String × String)) (env : Nat → AttemptOutcome) :
    ((∀ j, j < 5 → (env j).isFail = true) →
        (fetch_api city_coord param_current env).1 =
          failTrace (buildParams city_coord param_current) env 0 5 ∧
        sleepCount (fetch_api city_coord param_current env).1 = 5) ∧
    (∀ k d, k < 5 → (∀ j, j < k → (env j).isFail = true) →
        env k = AttemptOutcome.success d →
        sleepCount (fetch_api city_coord param_current env).1 = k) := by
  constructor
  · intro hfail
    have h := fetchLoop_all_fail (buildParams city_coord param_current) env 0 5
      (fun j hj => by simpa using hfail j hj)
    unfold fetch_api
    rw [h]
    exact ⟨rfl, sleepCount_failTrace _ env 5 0⟩
  · intro k d hk hfail hsucc
    have h := fetchLoop_success_at (buildParams city_coord param_current) env
      k 0 5 d hk (fun j hj => by simpa using hfail j hj) (by simpa using hsucc)
    unfold fetch_api
    rw [h, sleepCount_append, sleepCount_failTrace]
    simp [sleepCount]

theorem c3_witness :
    sleepCount (fetch_api (1, 2) PARAM_CURRENT_DEFAULT envAllFail).1 = 5 ∧
    sleepCount (fetch_api (1, 2) PARAM_CURRENT_DEFAULT envSuccAt2).1 = 2 :=
  ⟨((c3_amended_delay_after_every_failure (1, 2) PARAM_CURRENT_DEFAULT
      envAllFail).1 (fun j _ => rfl)).2,
   (c3_amended_delay_after_every_failure (1, 2) PARAM_CURRENT_DEFAULT
      envSuccAt2).2 2 demoPayload (by omega) (by decide) rfl⟩

/-- C4: when attempt `k` (0-indexed, `k < 5`, so the (k+1)-st attempt)
succeeds with parsed payload `d` and all prior attempts failed, `fetch_api`
issues exactly `k + 1` requests and returns `d` itself — any `JDict`
whatsoever, so no shape validation happens before returning. -/
theorem c4_success_returns_kth_payload (city_coord : Rat × Rat)
    (param_current : List (String × String)) (env : Nat → AttemptOutcome)
    (k : Nat) (d : JDict) (hk : k < 5)
    (hfail : ∀ j, j < k → (env j).isFail = true)
    (hsucc : env k = AttemptOutcome.success d) :
    requestCount (fetch_api city_coord param_current env).1 = k + 1 ∧
    (fetch_api city_coord param_current env).2 = Except.ok d := by
  have h := fetchLoop_success_at (buildParams city_coord param_current) env
    k 0 5 d hk (fun j hj => by simpa using hfail j hj) (by simpa using hsucc)
  unfold fetch_api
  rw [h]
  refine ⟨?_, rfl⟩
  rw [requestCount_append, requestCount_failTrace]
  simp [requestCount]

theorem c4_witness :
    requestCount (fetch_api (1, 2) PARAM_CURRENT_DEFAULT envSuccAt2).1 = 2 + 1 ∧
    (fetch_api (1, 2) PARAM_CURRENT_DEFAULT envSuccAt2).2 =
      Except.ok demoPayload :=
  c4_success_returns_kth_payload (1, 2) PARAM_CURRENT_DEFAULT envSuccAt2 2
    demoPayload (by omega) (by decide) rfl

/-- C5: with 5 consecutive failing attempts `fetch_api` raises the
terminal `ValueError` (FetchExhausted), exactly 5 requests were issued (no
sixth), and the exception propagates through the polling loop of `weather`
and out of `main` — the modelled process run ends with that error. -/
theorem c5_exhausted_is_fatal (city_coord : Rat × Rat)
    (param_current : List (String × String))
    (envs : Nat → Nat → AttemptOutcome) (fuel : Nat)
    (h : ∀ j, j < 5 → ((envs 0) j).isFail = true) :
    (fetch_api city_coord param_current (envs 0)).2 =
      Except.error EXHAUSTED_MSG ∧
    requestCount (fetch_api city_coord param_current (envs 0)).1 = 5 ∧
    (mainRun envs (fuel + 1)).2 = Except.error EXHAUSTED_MSG := by
  have hall := fetchLoop_all_fail (buildParams city_coord param_current)
    (envs 0) 0 5 (fun j hj => by simpa using h j hj)
  have hallm := fetchLoop_all_fail
    (buildParams ((55.751244 : Rat), (37.618423 : Rat)) PARAM_CURRENT_DEFAULT)
    (envs 0) 0 5 (fun j hj => by simpa using h j hj)
  refine ⟨?_, ?_, ?_⟩
  · unfold fetch_api; rw [hall]
  · unfold fetch_api; rw [hall]; exact requestCount_failTrace _ (envs 0) 5 0
  · have hm := weatherLoop_fetch_error
      ((55.751244 : Rat), (37.618423 : Rat)) PARAM_CURRENT_DEFAULT
      (pyCapitalize "moscow") 5 envs fuel 0 _ EXHAUSTED_MSG (by
        unfold fetch_api; rw [hallm])
    rw [mainRun, weather_moscow_unfold]
    simp only [Option.getD]
    rw [hm]

theorem c5_witness :
    (fetch_api (1, 2) [] (envsAllFail 0)).2 = Except.error EXHAUSTED_MSG ∧
    requestCount (fetch_api (1, 2) [] (envsAllFail 0)).1 = 5 ∧
    (mainRun envsAllFail (0 + 1)).2 = Except.error EXHAUSTED_MSG :=
  c5_exhausted_is_fatal (1, 2) [] envsAllFail 0 (fun _ _ => rfl)

/-- C6: the `current` query parameter of every request `fetch_api` issues
is exactly the provider keys of the supplied metric spec, comma-joined in
order (`specCommaJoin`), with no deduplication and no reordering. -/
theorem c6_current_param_roundtrip (city_coord : Rat × Rat)
    (param_current : List (String × String)) (env : Nat → AttemptOutcome) :
    (buildParams city_coord param_current).current =
      specCommaJoin (param_current.map Prod.fst) ∧
    (∀ q, Event.request q ∈ (fetch_api city_coord param_current env).1 →
        q.current = specCommaJoin (param_current.map Prod.fst)) := by
  have hb : (buildParams city_coord param_current).current =
      specCommaJoin (param_current.map Prod.fst) :=
    intercalate_comma_eq_specCommaJoin _
  refine ⟨hb, fun q hq => ?_⟩
  have hqp := fetchLoop_request_params (buildParams city_coord param_current)
    env 5 0 q hq
  rw [hqp]; exact hb

theorem c6_witness :
    (buildParams (1, 2) dupPC).current = specCommaJoin (dupPC.map Prod.fst) ∧
    specCommaJoin (dupPC.map Prod.fst) = "a,b,a" :=
  ⟨(c6_current_param_roundtrip (1, 2) dupPC envSucc0).2
      (buildParams (1, 2) dupPC) (by decide), by decide⟩

/-- C2 counterexample: for input "Atlantis" the raised `KeyError` carries
"atlantis" — the lowercased name, not the original input string. -/
theorem c2_counterexample :
    (weather "Atlantis" 5 none envsAllFail 1).2 =
      Except.error (NOT_FOUND_MSG "atlantis") ∧
    NOT_FOUND_MSG "atlantis" ≠ NOT_FOUND_MSG "Atlantis" := by decide

/-- C2 amended: for every city name whose lowercased form is absent from
the coordinate table, `weather` raises `KeyError` carrying the
lowercased (normalized) input — not the original string — and no polling
happens (the run produces no events). -/
theorem c2_amended_notfound_carries_lowercased (city : String)
    (interval_sec : Nat) (param_current : Option (List (String × String)))
    (envs : Nat → Nat → AttemptOutcome) (fuel : Nat)
    (h : coordGet CITY_COORD (pyLower city) = none) :
    (weather city interval_sec param_current envs fuel).2 =
      Except.error (NOT_FOUND_MSG (pyLower city)) ∧
    (weather city interval_sec param_current envs fuel).1 = [] := by
  rw [weather_unknown city interval_sec param_current envs fuel h]
  exact ⟨rfl, rfl⟩

theorem c2_witness :
    (weather "Gotham" 7 none envsAllFail 3).2 =
      Except.error (NOT_FOUND_MSG (pyLower "Gotham")) ∧
    (weather "Gotham" 7 none envsAllFail 3).1 = [] :=
  c2_amended_notfound_carries_lowercased "Gotham" 7 none envsAllFail 3
    (by decide)

/-- C7: a payload whose `current` or `current_units` key is absent makes
`print_weather` raise the `KeyError` (MalformedPayload); nothing is
printed — in particular no per-metric line. -/
theorem c7_missing_section_aborts (city_name : String) (d : JDict)
    (param_current : List (String × String))
    (h : dictGet d "current" = none ∨ dictGet d "current_units" = none) :
    print_weather city_name d param_current = Except.error MALFORMED_MSG ∧
    ∀ lines, print_weather city_name d param_current ≠ Except.ok lines := by
  have herr : print_weather city_name d param_current =
      Except.error MALFORMED_MSG := by
    rcases h with h | h <;> simp [print_weather, pyGetIsNone, h]
  exact ⟨herr, fun lines hok => by rw [herr] at hok; exact Except.noConfusion hok⟩

theorem c7_witness :
    print_weather "Moscow" [("current_units", Json.obj [])]
      PARAM_CURRENT_DEFAULT = Except.error MALFORMED_MSG ∧
    ∀ lines, print_weather "Moscow" [("current_units", Json.obj [])]
      PARAM_CURRENT_DEFAULT ≠ Except.ok lines :=
  c7_missing_section_aborts "Moscow" [("current_units", Json.obj [])]
    PARAM_CURRENT_DEFAULT (Or.inl rfl)

/-- C8: for a structurally valid payload (both sections present and
mappings) the presenter prints the header and then exactly one line per
metric, in metric-spec order: the formatted value-and-unit line when the
metric's key is present in both sections, the per-metric diagnostic line
otherwise — a missing key in one metric never affects the others. -/
theorem c8_one_line_per_metric (city_name : String) (d : JDict)
    (param_current : List (String × String))
    (cur un : List (String × Json))
    (hc : dictGet d "current" = some (Json.obj cur))
    (hu : dictGet d "current_units" = some (Json.obj un)) :
    print_weather city_name d param_current =
      Except.ok (("\nПогода в городе " ++ city_name) ::
        param_current.map (fun param =>
          match dictGet cur param.1, dictGet un param.1 with
          | some v, some u =>
              pyCapitalize param.2 ++ ": " ++ v.display ++ " " ++ u.display
          | some _, none => missingMetricLine param.1
          | none, _ => missingMetricLine param.1)) := by
  simp [print_weather, pyGetIsNone, hc, hu, jGet]

theorem c8_witness :
    print_weather "Moscow" c8d PARAM_CURRENT_DEFAULT =
      Except.ok ["\nПогода в городе Moscow",
                 "температура: 5 °C",
                 missingMetricLine "relative_humidity_2m",
                 "давление: 1013 hPa"] :=
  (c8_one_line_per_metric "Moscow" c8d PARAM_CURRENT_DEFAULT c8cur c8un
    rfl rfl).trans (by decide)

/-- C9: for a city whose lowercased name is not in the coordinate table,
the run fails with the `KeyError` before anything else happens — the trace
holds zero HTTP requests. -/
theorem c9_unknown_city_zero_requests (city : String) (interval_sec : Nat)
    (param_current : Option (List (String × String)))
    (envs : Nat → Nat → AttemptOutcome) (fuel : Nat)
    (h : coordGet CITY_COORD (pyLower city) = none) :
    requestCount (weather city interval_sec param_current envs fuel).1 = 0 ∧
    (weather city interval_sec param_current envs fuel).2 =
      Except.error (NOT_FOUND_MSG (pyLower city)) := by
  rw [weather_unknown city interval_sec param_current envs fuel h]
  exact ⟨rfl, rfl⟩

theorem c9_witness :
    requestCount (weather "atlantis" 5 none envsAllFail 2).1 = 0 ∧
    (weather "atlantis" 5 none envsAllFail 2).2 =
      Except.error (NOT_FOUND_MSG (pyLower "atlantis")) :=
  c9_unknown_city_zero_requests "atlantis" 5 none envsAllFail 2 (by decide)

/-- C10: a payload whose `current` or `current_units` key is bound to JSON
null is treated exactly like one missing the key: the same `KeyError`
(MalformedPayload) is raised, no line is printed, and the result equals
the result on the payload with the key deleted. -/
theorem c10_null_section_like_absent (city_name : String) (d : JDict)
    (param_current : List (String × String)) (k : String)
    (hk : k = "current" ∨ k = "current_units")
    (h : dictGet d k = some Json.null) :
    print_weather city_name d param_current = Except.error MALFORMED_MSG ∧
    print_weather city_name d param_current =
      print_weather city_name (eraseKey d k) param_current := by
  have herased := dictGet_eraseKey_self k d
  rcases hk with rfl | rfl
  · have h1 : print_weather city_name d param_current =
        Except.error MALFORMED_MSG := by
      simp [print_weather, pyGetIsNone, h]
    have h2 : print_weather city_name (eraseKey d "current") param_current =
        Except.error MALFORMED_MSG := by
      simp [print_weather, pyGetIsNone, herased]
    exact ⟨h1, h1.trans h2.symm⟩
  · have h1 : print_weather city_name d param_current =
        Except.error MALFORMED_MSG := by
      simp [print_weather, pyGetIsNone, h]
    have h2 : print_weather city_name (eraseKey d "current_units")
        param_current = Except.error MALFORMED_MSG := by
      simp [print_weather, pyGetIsNone, herased]
    exact ⟨h1, h1.trans h2.symm⟩

theorem c10_witness :
    print_weather "Moscow" [("current", Json.null), ("current_units", Json.obj [])]
      PARAM_CURRENT_DEFAULT = Except.error MALFORMED_MSG ∧
    print_weather "Moscow" [("current", Json.null), ("current_units", Json.obj [])]
      PARAM_CURRENT_DEFAULT =
    print_weather "Moscow"
      (eraseKey [("current", Json.null), ("current_units", Json.obj [])] "current")
      PARAM_CURRENT_DEFAULT :=
  c10_null_section_like_absent "Moscow"
    [("current", Json.null), ("current_units", Json.obj [])]
    PARAM_CURRENT_DEFAULT "current" (Or.inl rfl) rfl

example :
    print_weather "Moscow"
      [("current", Json.obj [("temperature_2m", Json.num 5)]),
       ("current_units", Json.obj [("temperature_2m", Json.str "°C")])]
      [("temperature_2m", "температура"), ("pressure_msl", "давление")] =
    Except.ok ["\nПогода в городе Moscow",
               pyCapitalize "температура" ++ ": 5 °C",
               missingMetricLine "pressure_msl"] := by decide

example :
    print_weather "Moscow" [("current", Json.obj [])] [] =
    Except.error MALFORMED_MSG := by decide

example : pyLower "Atlantis" = "atlantis" := by decide

example :
    (fetch_api (1, 2) [("a", "x")] (fun _ => AttemptOutcome.httpError "boom")).2 =
      Except.error EXHAUSTED_MSG := rfl

example :
    sleepCount (fetch_api (1, 2) [("a", "x")]
      (fun _ => AttemptOutcome.httpError "boom")).1 = 5 := by decide

example :
    fetch_api (1, 2) [("a", "x")] (fun _ => AttemptOutcome.success []) =
      ([Event.request (buildParams (1, 2) [("a", "x")])], Except.ok []) := rfl

example : (mainRun (fun _ _ => AttemptOutcome.httpError "x") 1).2 =
    Except.error EXHAUSTED_MSG := by decide

example : (weather "Atlantis" 5 none (fun _ _ => AttemptOutcome.httpError "x") 1) =
    ([], Except.error (NOT_FOUND_MSG "atlantis")) := by decide
